/-
Verification of the content-change monitoring engine of website-monitor.py.

Python strings are modelled as lists of characters (`PyStr`).  Pure helper
functions of the source (whitespace normalisation, line splitting, diff
computation, the per-check state transition, the retry loop, the per-site
due test) are translated into executable Lean definitions; filesystem state
per target is a `SiteStore` record, and external library calls
(BeautifulSoup parsing, difflib, HTML rendering, notification transport)
appear as explicit parameters or faithfully modelled functions, as noted on
each definition.
-/
import Mathlib

namespace WebsiteMonitor

/-- Python strings are modelled as lists of characters. -/
abbrev PyStr := List Char

/-- Whitespace test used by the regex class backslash-s and by str.strip
in extract_content (line 278).  We model the ASCII whitespace characters;
Python additionally treats some Unicode characters as whitespace, which
changes nothing in the properties proved below. -/
def pyIsSpace (c : Char) : Bool :=
  c = ' ' || c = '\t' || c = '\n' || c = '\r' || c = '\x0b' || c = '\x0c'

/-- Models the substitution re.sub of one space for every maximal run of
whitespace, as performed on line 278 of extract_content.  The boolean flag
records whether the previous character belonged to a whitespace run. -/
def collapseWsAux : Bool → PyStr → PyStr
  | _, [] => []
  | prevWs, c :: cs =>
    if pyIsSpace c then
      if prevWs then collapseWsAux true cs else ' ' :: collapseWsAux true cs
    else c :: collapseWsAux false cs

/-- Every maximal whitespace run replaced by a single space. -/
def collapseWs (s : PyStr) : PyStr := collapseWsAux false s

/-- Models Python str.strip (no arguments): drops the leading run of
whitespace characters.  The trailing run is dropped by `dropTrailingWs`. -/
def dropTrailingWs : PyStr → PyStr
  | [] => []
  | c :: cs =>
    let rest := dropTrailingWs cs
    if rest.isEmpty && pyIsSpace c then [] else c :: rest

/-- Models Python str.strip: removes whitespace from both ends. -/
def pyStrip (s : PyStr) : PyStr := dropTrailingWs (s.dropWhile pyIsSpace)

/-- The whitespace normalisation performed at the end of extract_content
(line 278): collapse every whitespace run to a single space, then strip
both ends. -/
def normalizeWs (s : PyStr) : PyStr := pyStrip (collapseWs s)

/-- Support predicate: the first character, if any, is not whitespace. -/
def headNotWs : PyStr → Bool
  | [] => true
  | c :: _ => !pyIsSpace c

/-- Support predicate: no two adjacent characters are both whitespace. -/
def noWsRun : PyStr → Bool
  | [] => true
  | [_] => true
  | a :: b :: rest => !(pyIsSpace a && pyIsSpace b) && noWsRun (b :: rest)

/-- Support predicate: every whitespace character is a plain space. -/
def allWsSpace (s : PyStr) : Bool := s.all (fun c => !pyIsSpace c || c = ' ')

/-- Worker for `pySplitlines`: `cur` is the reversed current line. -/
def splitlinesGo (cur : PyStr) : PyStr → List PyStr
  | [] => [cur.reverse]
  | c :: cs =>
    if c = '\n' then
      cur.reverse :: (if cs.isEmpty then [] else splitlinesGo [] cs)
    else splitlinesGo (c :: cur) cs

/-- Models Python str.splitlines for newline-delimited text: the empty
string yields no lines, a trailing newline does not create an extra empty
line.  (Python also splits on other line-boundary characters such as
carriage return; the monitor stores whitespace-normalised content, which
contains no line boundaries at all, so the newline case is the general
one relevant here.) -/
def pySplitlines (s : PyStr) : List PyStr :=
  if s.isEmpty then [] else splitlinesGo [] s

/-- Models the join of a list of lines with a newline separator. -/
def joinNewline (lines : List PyStr) : PyStr := List.intercalate ['\n'] lines

/-- Two-character tag placed by difflib in front of lines only in the new
sequence. -/
def plusTag : PyStr := ['+', ' ']

/-- Two-character tag placed by difflib in front of lines only in the old
sequence. -/
def minusTag : PyStr := ['-', ' ']

/-- Two-character tag placed by difflib in front of common lines. -/
def commonTag : PyStr := [' ', ' ']

/-- Models difflib.Differ().compare as used by compute_diff (line 314):
every line of the old sequence appears in the output tagged "- " or "  ",
every line of the new sequence tagged "+ " or "  ", and common lines are
tagged "  ".  (difflib occasionally also emits "? " hint lines, which
compute_diff filters away, so they are omitted here.)  We use a simple
synchronising diff; it agrees with difflib on the only fact compute_diff
observes after its filter, namely whether any "+ " or "- " tagged line is
present, which for both algorithms happens exactly when the two line
sequences differ. -/
def differCompare : List PyStr → List PyStr → List PyStr
  | [], ys => ys.map (fun y => plusTag ++ y)
  | x :: xs, [] => (minusTag ++ x) :: differCompare xs []
  | x :: xs, y :: ys =>
    if x = y then (commonTag ++ x) :: differCompare xs ys
    else (minusTag ++ x) :: (plusTag ++ y) :: differCompare xs ys

/-- Models Python str.startswith. -/
def pyStartswith (s pre : PyStr) : Bool := pre.isPrefixOf s

/-- The filter of compute_diff (line 317): keep lines starting with "+ "
or "- ". -/
def isChangeLine (l : PyStr) : Bool := pyStartswith l plusTag || pyStartswith l minusTag

/-- Models compute_diff (lines 308-319).  Python truthiness: an input that
is None or the empty string short-circuits the guard to None; the filtered
change lines are joined with newlines, and an empty change list yields
None.  Both inputs here are the loaded previous content and the freshly
extracted content, never None at this call site, so the inputs are plain
strings. -/
def computeDiff (oldContent newContent : PyStr) : Option PyStr :=
  if oldContent.isEmpty || newContent.isEmpty then none
  else
    let changes := (differCompare (pySplitlines oldContent) (pySplitlines newContent)).filter isChangeLine
    if changes.isEmpty then none else some (joinNewline changes)

/-- Filesystem effect of one persistence operation. -/
inductive FsOp
  | write (path : PyStr) (content : PyStr)
  | replace (src : PyStr) (dst : PyStr)
deriving DecidableEq

/-- Models save_content (lines 286-294): the destination file_path is
opened directly in write mode and the whole content is written to it.  The
trace of filesystem operations is a single direct write; no temporary file
is created and no replace/rename is performed.  (The surrounding
try/except only turns an I/O failure into a False return; the success path
modelled here is the one the atomicity claim is about.) -/
def saveContentOps (content filePath : PyStr) : List FsOp := [FsOp.write filePath content]

/-- Modelled from the spec (section 4.4): the write-to-temporary-then-
replace save that the spec claims save performs.  This mechanism is absent
from the source; the definition exists only to be compared against
`saveContentOps`. -/
def atomicSaveOps (content filePath tmpPath : PyStr) : List FsOp :=
  [FsOp.write tmpPath content, FsOp.replace tmpPath filePath]

/-- A flat filesystem: a map from paths to file contents. -/
def FileSystem := PyStr → Option PyStr

/-- Effect of one filesystem operation on the filesystem. -/
def applyFsOp (fs : FileSystem) : FsOp → FileSystem
  | .write p c => fun q => if q = p then some c else fs q
  | .replace src dst => fun q =>
      if q = dst then fs src else if q = src then none else fs q

/-- Run a trace of filesystem operations in order. -/
def runFsOps (fs : FileSystem) (ops : List FsOp) : FileSystem :=
  ops.foldl applyFsOp fs

/-- Models load_content (lines 296-306): None when the file does not
exist, otherwise the file text. -/
def loadContent (fs : FileSystem) (filePath : PyStr) : Option PyStr := fs filePath

/-- The per-target persisted state: the five files check_website_changes
keeps in the target's data directory (content.txt, raw.html, diff.txt,
diff.html, last_check.json).  `none` means the file does not exist; the
timestamp is the value stored in last_check.json. -/
structure SiteStore where
  content : Option PyStr
  raw : Option PyStr
  diffTxt : Option PyStr
  diffHtml : Option PyStr
  lastCheck : Option Int
deriving DecidableEq

/-- Which of the three top-level paths of check_website_changes ran:
the early return on a falsy fetch result, the baseline-establishment
branch, or the branch that computes a diff against the stored baseline. -/
inductive CheckBranch
  | fetchFailed
  | baselineEstablished
  | diffed
deriving DecidableEq

/-- Observable outcome of one check_website_changes call: its return
value, the target's files afterwards, and whether send_notification was
invoked. -/
structure CheckResult where
  changed : Bool
  store : SiteStore
  notified : Bool
  branch : CheckBranch
deriving DecidableEq

/-- Models check_website_changes (lines 513-593) for one target.
`extract` stands for the call to extract_content with the target's
selector and ignore patterns (its BeautifulSoup parsing is an external
library); `renderHtmlDiff` stands for format_diff_html; `fetched` is the
value returned by fetch_website_content (None on exhausted retries);
`notifyOk` is the value send_notification would return — the source
discards it, which is why it does not occur in the body.  Python
truthiness is modelled exactly: a fetch result that is None or the empty
string returns early, and a previous content that is None (file absent)
or the empty string takes the baseline branch. -/
def checkWebsiteChanges (extract : PyStr → PyStr) (renderHtmlDiff : PyStr → PyStr → PyStr)
    (now : Int) (forceUpdate : Bool) (_notifyOk : Bool)
    (fetched : Option PyStr) (st : SiteStore) : CheckResult :=
  match fetched with
  | none => ⟨false, st, false, .fetchFailed⟩
  | some htmlContent =>
    if htmlContent.isEmpty then ⟨false, st, false, .fetchFailed⟩
    else
      let st1 := { st with raw := some htmlContent }
      let extracted := extract htmlContent
      let previous := st1.content
      if (previous.getD []).isEmpty || forceUpdate then
        ⟨false, { st1 with content := some extracted, lastCheck := some now },
         false, .baselineEstablished⟩
      else
        let prev := previous.getD []
        let st2 := { st1 with lastCheck := some now }
        match computeDiff prev extracted with
        | some diffText =>
          if diffText.isEmpty then ⟨false, st2, false, .diffed⟩
          else
            ⟨true,
             { st2 with diffTxt := some diffText,
                        diffHtml := some (renderHtmlDiff prev extracted),
                        content := some extracted },
             true, .diffed⟩
        | none => ⟨false, st2, false, .diffed⟩

/-- Trace of one fetch_website_content call: the returned value, the
sleeps performed between attempts, and how many HTTP attempts were made. -/
structure FetchTrace where
  result : Option PyStr
  sleeps : List Nat
  attemptsMade : Nat
deriving DecidableEq

/-- Worker for `fetchWebsiteContent`: `remaining` is how many loop
iterations of `for attempt in range(retry_count)` are left and `i` is the
current attempt index.  `attempts i` is the outcome of the i-th HTTP
attempt: some text when requests.get succeeds (raise_for_status passes),
none when it raises a RequestException.  A failed attempt that is not the
last sleeps retry_delay seconds and continues; the last failure returns
None without sleeping. -/
def fetchGo (attempts : Nat → Option PyStr) (retryDelay : Nat) : Nat → Nat → FetchTrace
  | 0, _ => ⟨none, [], 0⟩
  | n + 1, i =>
    match attempts i with
    | some text => ⟨some text, [], 1⟩
    | none =>
      if n = 0 then ⟨none, [], 1⟩
      else
        let r := fetchGo attempts retryDelay n (i + 1)
        ⟨r.result, retryDelay :: r.sleeps, r.attemptsMade + 1⟩

/-- Models fetch_website_content (lines 217-238): up to retry_count
attempts, a fixed retry_delay sleep between consecutive attempts, None
returned when every attempt fails. -/
def fetchWebsiteContent (retryCount retryDelay : Nat) (attempts : Nat → Option PyStr) : FetchTrace :=
  fetchGo attempts retryDelay retryCount 0

/-- One monitored site of the check_sites loop: its active flag, the
fetch outcome this cycle, and its own data-directory state.  (Each site
has its own directory keyed by the URL hash, so stores are disjoint.) -/
abbrev SiteEntry := Bool × Option PyStr × SiteStore

/-- Models the body of the `for site in sites` loop of check_sites
(lines 651-657): an inactive site is skipped with its files untouched,
otherwise check_website_changes runs on the site's own directory. -/
def checkSiteEntry (extract : PyStr → PyStr) (renderHtmlDiff : PyStr → PyStr → PyStr)
    (now : Int) (notifyOk : Bool) (e : SiteEntry) : Bool × SiteStore :=
  if e.1 then
    let r := checkWebsiteChanges extract renderHtmlDiff now false notifyOk e.2.1 e.2.2
    (r.changed, r.store)
  else (false, e.2.2)

/-- Sequential loop of check_sites with the changes_detected accumulator;
returns the final flag together with each site's (changed, files)
outcome in order. -/
def checkSitesGo (extract : PyStr → PyStr) (renderHtmlDiff : PyStr → PyStr → PyStr)
    (now : Int) (notifyOk : Bool) : List SiteEntry → Bool → Bool × List (Bool × SiteStore)
  | [], acc => (acc, [])
  | e :: es, acc =>
    let r := checkSiteEntry extract renderHtmlDiff now notifyOk e
    let rest := checkSitesGo extract renderHtmlDiff now notifyOk es (acc || r.1)
    (rest.1, r :: rest.2)

/-- Models check_sites (lines 631-659) with reset_site absent: Python
returns None when the site list is empty, otherwise the changes_detected
flag; we additionally record each site's outcome. -/
def checkSites (extract : PyStr → PyStr) (renderHtmlDiff : PyStr → PyStr → PyStr)
    (now : Int) (notifyOk : Bool) (entries : List SiteEntry) :
    Option (Bool × List (Bool × SiteStore)) :=
  if entries.isEmpty then none
  else some (checkSitesGo extract renderHtmlDiff now notifyOk entries false)

/-- Scheduling view of one configured site: its active flag (default
True) and its own check_interval entry (None in the default config). -/
structure SiteSched where
  active : Bool
  checkInterval : Option Int
deriving DecidableEq

/-- Models `site.get('check_interval') or config['check_interval']`
(line 693): Python `or` falls back to the global value when the site
entry is None or the falsy integer 0. -/
def effectiveInterval (globalInterval : Int) (site : SiteSched) : Int :=
  match site.checkInterval with
  | some i => if i = 0 then globalInterval else i
  | none => globalInterval

/-- Models the per-site due test of one daemon tick (lines 675-697):
an inactive site is skipped; otherwise last_check_time is the stored
timestamp, or 0 when last_check.json is missing or unreadable, and the
site is checked when now - last_check_time >= check_interval. -/
def daemonDue (globalInterval : Int) (site : SiteSched) (lastCheck : Option Int) (now : Int) : Bool :=
  site.active && decide (now - lastCheck.getD 0 ≥ effectiveInterval globalInterval site)

theorem noWsRun_cons_cons {a b : Char} {t : PyStr} (h1 : (pyIsSpace a && pyIsSpace b) = false)
    (h2 : noWsRun (b :: t) = true) : noWsRun (a :: b :: t) = true := by
  simp [noWsRun, h1, h2]

theorem noWsRun_tail {a : Char} {t : PyStr} (h : noWsRun (a :: t) = true) : noWsRun t = true := by
  cases t with
  | nil => rfl
  | cons b bs =>
    simp only [noWsRun, Bool.and_eq_true] at h
    exact h.2

theorem noWsRun_head {a b : Char} {t : PyStr} (h : noWsRun (a :: b :: t) = true) :
    (pyIsSpace a && pyIsSpace b) = false := by
  simp only [noWsRun, Bool.and_eq_true, Bool.not_eq_true'] at h
  exact h.1

theorem noWsRun_cons_of {a : Char} {t : PyStr} (h2 : noWsRun t = true)
    (h1 : pyIsSpace a = false ∨ headNotWs t = true) : noWsRun (a :: t) = true := by
  cases t with
  | nil => rfl
  | cons b bs =>
    refine noWsRun_cons_cons ?_ h2
    rcases h1 with h1 | h1
    · simp [h1]
    · simp only [headNotWs, Bool.not_eq_true'] at h1
      simp [h1]

theorem headNotWs_collapseWsAux_true (s : PyStr) : headNotWs (collapseWsAux true s) = true := by
  induction s with
  | nil => rfl
  | cons c cs ih =>
    by_cases h : pyIsSpace c = true
    · simpa [collapseWsAux, h] using ih
    · simp only [Bool.not_eq_true] at h
      simp [collapseWsAux, h, headNotWs]

theorem noWsRun_collapseWsAux (s : PyStr) : ∀ flag : Bool, noWsRun (collapseWsAux flag s) = true := by
  induction s with
  | nil => intro flag; rfl
  | cons c cs ih =>
    intro flag
    by_cases h : pyIsSpace c = true
    · cases flag with
      | true => simpa [collapseWsAux, h] using ih true
      | false =>
        simp only [collapseWsAux, h, if_true]
        refine noWsRun_cons_of (ih true) (Or.inr ?_)
        exact headNotWs_collapseWsAux_true cs
    · simp only [Bool.not_eq_true] at h
      simp only [collapseWsAux, h, Bool.false_eq_true, if_false]
      exact noWsRun_cons_of (ih false) (Or.inl h)

theorem allWsSpace_collapseWsAux (s : PyStr) : ∀ flag : Bool, allWsSpace (collapseWsAux flag s) = true := by
  induction s with
  | nil => intro flag; rfl
  | cons c cs ih =>
    intro flag
    by_cases h : pyIsSpace c = true
    · cases flag with
      | true => simpa [collapseWsAux, h] using ih true
      | false =>
        simp only [collapseWsAux, h, if_true]
        simpa [allWsSpace] using ih true
    · simp only [Bool.not_eq_true] at h
      simp only [collapseWsAux, h, Bool.false_eq_true, if_false]
      simpa [allWsSpace, h] using ih false

theorem allWsSpace_tail {a : Char} {t : PyStr} (h : allWsSpace (a :: t) = true) :
    allWsSpace t = true := by
  simp only [allWsSpace, List.all_cons, Bool.and_eq_true] at h ⊢
  exact h.2

theorem allWsSpace_head {a : Char} {t : PyStr} (h : allWsSpace (a :: t) = true)
    (hws : pyIsSpace a = true) : a = ' ' := by
  simp only [allWsSpace, List.all_cons, Bool.and_eq_true, Bool.or_eq_true,
    Bool.not_eq_true', decide_eq_true_eq] at h
  rcases h.1 with h1 | h1
  · rw [hws] at h1; cases h1
  · exact h1

theorem collapseWsAux_fix (s : PyStr) (hr : noWsRun s = true) (ha : allWsSpace s = true) :
    collapseWsAux false s = s ∧ (headNotWs s = true → collapseWsAux true s = s) := by
  induction s with
  | nil => exact ⟨rfl, fun _ => rfl⟩
  | cons c cs ih =>
    obtain ⟨ih1, ih2⟩ := ih (noWsRun_tail hr) (allWsSpace_tail ha)
    by_cases h : pyIsSpace c = true
    · have hc : c = ' ' := allWsSpace_head ha h
      have htail : collapseWsAux true cs = cs := by
        refine ih2 ?_
        cases cs with
        | nil => rfl
        | cons b bs =>
          have := noWsRun_head hr
          rw [h, Bool.true_and] at this
          simp [headNotWs, this]
      constructor
      · subst hc
        simp [collapseWsAux, h, htail]
      · intro hh
        rw [headNotWs, h] at hh
        cases hh
    · simp only [Bool.not_eq_true] at h
      constructor
      · simp [collapseWsAux, h, ih1]
      · intro _
        simp [collapseWsAux, h, ih1]

theorem headNotWs_dropWhile (s : PyStr) : headNotWs (s.dropWhile pyIsSpace) = true := by
  induction s with
  | nil => rfl
  | cons c cs ih =>
    by_cases h : pyIsSpace c = true
    · simpa [List.dropWhile_cons, h] using ih
    · simp only [Bool.not_eq_true] at h
      simp [List.dropWhile_cons, h, headNotWs]

theorem noWsRun_dropWhile {s : PyStr} (hr : noWsRun s = true) :
    noWsRun (s.dropWhile pyIsSpace) = true := by
  induction s with
  | nil => rfl
  | cons c cs ih =>
    by_cases h : pyIsSpace c = true
    · simpa [List.dropWhile_cons, h] using ih (noWsRun_tail hr)
    · simp only [Bool.not_eq_true] at h
      simpa [List.dropWhile_cons, h] using hr

theorem allWsSpace_dropWhile {s : PyStr} (ha : allWsSpace s = true) :
    allWsSpace (s.dropWhile pyIsSpace) = true := by
  induction s with
  | nil => rfl
  | cons c cs ih =>
    by_cases h : pyIsSpace c = true
    · simpa [List.dropWhile_cons, h] using ih (allWsSpace_tail ha)
    · simp only [Bool.not_eq_true] at h
      simpa [List.dropWhile_cons, h] using ha

theorem dropWhile_of_headNotWs {s : PyStr} (h : headNotWs s = true) :
    s.dropWhile pyIsSpace = s := by
  cases s with
  | nil => rfl
  | cons c cs =>
    simp only [headNotWs, Bool.not_eq_true'] at h
    simp [List.dropWhile_cons, h]

theorem dropTrailingWs_cons_cases (c : Char) (cs : PyStr) :
    dropTrailingWs (c :: cs) = [] ∨ dropTrailingWs (c :: cs) = c :: dropTrailingWs cs := by
  simp only [dropTrailingWs]
  split
  · exact Or.inl rfl
  · exact Or.inr rfl

theorem headNotWs_dropTrailingWs {s : PyStr} (h : headNotWs s = true) :
    headNotWs (dropTrailingWs s) = true := by
  cases s with
  | nil => rfl
  | cons c cs =>
    rcases dropTrailingWs_cons_cases c cs with hc | hc <;> rw [hc]
    · rfl
    · simpa [headNotWs] using h

theorem noWsRun_dropTrailingWs {s : PyStr} (hr : noWsRun s = true) :
    noWsRun (dropTrailingWs s) = true := by
  induction s with
  | nil => rfl
  | cons c cs ih =>
    rcases dropTrailingWs_cons_cases c cs with hc | hc <;> rw [hc]
    · rfl
    · refine noWsRun_cons_of (ih (noWsRun_tail hr)) ?_
      by_cases hw : pyIsSpace c = true
      · refine Or.inr ?_
        cases cs with
        | nil => rfl
        | cons b bs =>
          have hb := noWsRun_head hr
          rw [hw, Bool.true_and] at hb
          rcases dropTrailingWs_cons_cases b bs with hb2 | hb2 <;> rw [hb2]
          · rfl
          · simp [headNotWs, hb]
      · simp only [Bool.not_eq_true] at hw
        exact Or.inl hw

theorem allWsSpace_dropTrailingWs {s : PyStr} (ha : allWsSpace s = true) :
    allWsSpace (dropTrailingWs s) = true := by
  induction s with
  | nil => rfl
  | cons c cs ih =>
    rcases dropTrailingWs_cons_cases c cs with hc | hc <;> rw [hc]
    · rfl
    · simp only [allWsSpace, List.all_cons, Bool.and_eq_true] at ha ⊢
      exact ⟨ha.1, ih ha.2⟩

theorem dropTrailingWs_idem (s : PyStr) : dropTrailingWs (dropTrailingWs s) = dropTrailingWs s := by
  induction s with
  | nil => rfl
  | cons c cs ih =>
    by_cases hcond : (List.isEmpty (dropTrailingWs cs) && pyIsSpace c) = true
    · have h1 : dropTrailingWs (c :: cs) = [] := by
        simp only [dropTrailingWs]
        rw [if_pos hcond]
      rw [h1]
      rfl
    · have h1 : dropTrailingWs (c :: cs) = c :: dropTrailingWs cs := by
        simp only [dropTrailingWs]
        rw [if_neg hcond]
      rw [h1]
      simp only [dropTrailingWs]
      rw [ih, if_neg hcond]

theorem normalizeWs_invariants (t : PyStr) :
    noWsRun (normalizeWs t) = true ∧ allWsSpace (normalizeWs t) = true ∧
      headNotWs (normalizeWs t) = true := by
  unfold normalizeWs pyStrip collapseWs
  refine ⟨?_, ?_, ?_⟩
  · exact noWsRun_dropTrailingWs (noWsRun_dropWhile (noWsRun_collapseWsAux t false))
  · exact allWsSpace_dropTrailingWs (allWsSpace_dropWhile (allWsSpace_collapseWsAux t false))
  · exact headNotWs_dropTrailingWs (headNotWs_dropWhile _)

theorem normalizeWs_fixpoint {s : PyStr} (hr : noWsRun s = true) (ha : allWsSpace s = true)
    (hh : headNotWs s = true) (hd : dropTrailingWs s = s) : normalizeWs s = s := by
  unfold normalizeWs
  have hcol : collapseWs s = s := (collapseWsAux_fix s hr ha).1
  rw [hcol]
  unfold pyStrip
  rw [dropWhile_of_headNotWs hh, hd]

theorem dropTrailingWs_normalizeWs (t : PyStr) :
    dropTrailingWs (normalizeWs t) = normalizeWs t := by
  unfold normalizeWs pyStrip
  rw [dropTrailingWs_idem]

theorem isPrefixOf_cons_cons (a b : Char) (as bs : List Char) :
    List.isPrefixOf (a :: as) (b :: bs) = ((a == b) && List.isPrefixOf as bs) := rfl

theorem isChangeLine_common (x : PyStr) : isChangeLine (commonTag ++ x) = false := by
  have h1 : ('+' == ' ') = false := by decide
  have h2 : ('-' == ' ') = false := by decide
  simp [isChangeLine, pyStartswith, plusTag, minusTag, commonTag,
    isPrefixOf_cons_cons, h1, h2]

theorem isChangeLine_plus (y : PyStr) : isChangeLine (plusTag ++ y) = true := by
  simp [isChangeLine, pyStartswith, plusTag, commonTag, isPrefixOf_cons_cons]

theorem isChangeLine_minus (x : PyStr) : isChangeLine (minusTag ++ x) = true := by
  have h1 : ('-' == '+') = false := by decide
  simp [isChangeLine, pyStartswith, plusTag, minusTag, isPrefixOf_cons_cons, h1]

theorem differ_filter_eq_nil_iff (xs : List PyStr) : ∀ ys : List PyStr,
    ((differCompare xs ys).filter isChangeLine = [] ↔ xs = ys) := by
  induction xs with
  | nil =>
    intro ys
    cases ys with
    | nil => simp [differCompare]
    | cons y ys =>
      simp only [differCompare, List.map_cons, List.filter_cons, isChangeLine_plus]
      constructor
      · intro h; cases h
      · intro h; cases h
  | cons x xs ih =>
    intro ys
    cases ys with
    | nil =>
      simp only [differCompare, List.filter_cons, isChangeLine_minus]
      constructor
      · intro h; cases h
      · intro h; cases h
    | cons y ys =>
      by_cases hxy : x = y
      · subst hxy
        simp [differCompare, isChangeLine_common, ih ys]
      · simp only [differCompare, if_neg hxy, List.filter_cons, isChangeLine_minus]
        constructor
        · intro h; cases h
        · intro h
          cases h
          exact absurd rfl hxy

theorem computeDiff_self (t : PyStr) : computeDiff t t = none := by
  unfold computeDiff
  by_cases h : t.isEmpty = true
  · simp [h]
  · simp only [Bool.not_eq_true] at h
    simp [h, List.isEmpty_iff, (differ_filter_eq_nil_iff (pySplitlines t) (pySplitlines t)).mpr rfl]

theorem computeDiff_some_of_ne {a b : PyStr} (ha : a ≠ []) (hb : b ≠ [])
    (hne : pySplitlines a ≠ pySplitlines b) : computeDiff a b ≠ none := by
  unfold computeDiff
  have ha2 : a.isEmpty = false := by simp [List.isEmpty_iff, ha]
  have hb2 : b.isEmpty = false := by simp [List.isEmpty_iff, hb]
  have hch : ((differCompare (pySplitlines a) (pySplitlines b)).filter isChangeLine) ≠ [] := by
    intro h
    exact hne ((differ_filter_eq_nil_iff _ _).mp h)
  simp [ha2, hb2, List.isEmpty_iff, hch]

theorem computeDiff_ne_nil {a b : PyStr} (h : computeDiff a b ≠ none) :
    a ≠ [] ∧ b ≠ [] := by
  unfold computeDiff at h
  by_cases ha : a.isEmpty = true
  · simp [ha] at h
  · by_cases hb : b.isEmpty = true
    · simp [hb] at h
    · simp only [Bool.not_eq_true, List.isEmpty_eq_false_iff_exists_mem] at ha hb
      constructor
      · rintro rfl; simp at ha
      · rintro rfl; simp at hb

theorem fetchGo_all_fail {attempts : Nat → Option PyStr} (retryDelay : Nat)
    (h : ∀ i, attempts i = none) :
    ∀ n i, fetchGo attempts retryDelay n i =
      ⟨none, List.replicate (n - 1) retryDelay, n⟩ := by
  intro n
  induction n with
  | zero => intro i; rfl
  | succ m ih =>
    intro i
    cases m with
    | zero => simp [fetchGo, h i]
    | succ k =>
      have step : fetchGo attempts retryDelay (k + 1 + 1) i =
          (match attempts i with
           | some text => (⟨some text, [], 1⟩ : FetchTrace)
           | none =>
             ⟨(fetchGo attempts retryDelay (k + 1) (i + 1)).result,
              retryDelay :: (fetchGo attempts retryDelay (k + 1) (i + 1)).sleeps,
              (fetchGo attempts retryDelay (k + 1) (i + 1)).attemptsMade + 1⟩) := rfl
      rw [step, h i]
      dsimp only
      rw [ih (i + 1)]
      simp [List.replicate_succ]

theorem checkSitesGo_spec (extract : PyStr → PyStr) (renderHtmlDiff : PyStr → PyStr → PyStr)
    (now : Int) (notifyOk : Bool) :
    ∀ (es : List SiteEntry) (acc : Bool),
      checkSitesGo extract renderHtmlDiff now notifyOk es acc =
        (acc || es.any (fun e => (checkSiteEntry extract renderHtmlDiff now notifyOk e).1),
         es.map (checkSiteEntry extract renderHtmlDiff now notifyOk)) := by
  intro es
  induction es with
  | nil => intro acc; simp [checkSitesGo]
  | cons e es ih =>
    intro acc
    simp [checkSitesGo, ih, Bool.or_assoc]

/-- C1 (amended): for a target with no prior stored record, a single check
whose fetch succeeds with non-empty text never reports a change and sends
no notification, and always leaves the extracted content as the new
baseline together with a fresh last-check timestamp (and the raw payload).
The non-emptiness proviso is forced by `first_check_empty_fetch_cex`: the
source treats a successful fetch of the empty document like a fetch
failure. -/
theorem first_check_establishes_baseline (extract : PyStr → PyStr)
    (renderHtmlDiff : PyStr → PyStr → PyStr) (now : Int) (notifyOk : Bool)
    (html : PyStr) (st : SiteStore) (hprev : st.content = none) (hhtml : html ≠ []) :
    checkWebsiteChanges extract renderHtmlDiff now false notifyOk (some html) st =
      ⟨false,
       { st with raw := some html, content := some (extract html), lastCheck := some now },
       false, .baselineEstablished⟩ := by
  have h2 : html.isEmpty = false := by simp [List.isEmpty_iff, hhtml]
  simp [checkWebsiteChanges, h2, hprev]

/-- C1 (counterexample): the claim states that any successful fetch leaves
a baseline record and timestamp behind.  Here every fetch attempt succeeds
and returns the empty document, so fetch_website_content returns the empty
string — a successful fetch — yet check_website_changes takes its early
falsy-content return and leaves neither a content record nor a timestamp. -/
theorem first_check_empty_fetch_cex :
    (fetchWebsiteContent 3 5 (fun _ => some [])).result = some [] ∧
    checkWebsiteChanges id (fun _ _ => []) 0 false true
        (fetchWebsiteContent 3 5 (fun _ => some [])).result
        ⟨none, none, none, none, none⟩ =
      ⟨false, ⟨none, none, none, none, none⟩, false, .fetchFailed⟩ :=
  ⟨rfl, rfl⟩

/-- Witness for C1 at a concrete input. -/
theorem first_check_establishes_baseline_witness :
    checkWebsiteChanges id (fun _ _ => []) 0 false true (some ['h'])
        ⟨none, none, none, none, none⟩ =
      ⟨false, ⟨some ['h'], some ['h'], none, none, some 0⟩, false, .baselineEstablished⟩ :=
  first_check_establishes_baseline id (fun _ _ => []) 0 true ['h']
    ⟨none, none, none, none, none⟩ rfl (by decide)

/-- C2 (amended): compute_diff of a text with itself is always None (no
change); compute_diff(a, b) is a non-None change set iff both inputs are
non-empty (Python truthiness guard) and their line-split views differ.  In
particular two different texts with either side empty, or differing only
by a trailing newline, report no change — see
`compute_diff_neq_iff_cex`. -/
theorem compute_diff_emptiness (a b : PyStr) :
    computeDiff a a = none ∧
    (computeDiff a b ≠ none ↔ (a ≠ [] ∧ b ≠ [] ∧ pySplitlines a ≠ pySplitlines b)) := by
  refine ⟨computeDiff_self a, ⟨?_, ?_⟩⟩
  · intro h
    obtain ⟨ha, hb⟩ := computeDiff_ne_nil h
    refine ⟨ha, hb, fun hsp => h ?_⟩
    unfold computeDiff
    have ha2 : a.isEmpty = false := by simp [List.isEmpty_iff, ha]
    have hb2 : b.isEmpty = false := by simp [List.isEmpty_iff, hb]
    simp [ha2, hb2, List.isEmpty_iff, (differ_filter_eq_nil_iff _ _).mpr hsp]
  · rintro ⟨ha, hb, hsp⟩
    exact computeDiff_some_of_ne ha hb hsp

/-- C2 (counterexample): the claim states compute_diff(a, b) is non-empty
iff a differs from b.  With a = "a" and b = "" the texts differ but the
empty-input guard returns None; with a = "a" followed by a newline and
b = "a" the texts differ but the line-split views coincide, so the change
set is again None. -/
theorem compute_diff_neq_iff_cex :
    computeDiff ['a'] [] = none ∧ (['a'] : PyStr) ≠ [] ∧
    computeDiff ['a', '\n'] ['a'] = none ∧ (['a', '\n'] : PyStr) ≠ ['a'] :=
  ⟨by decide, by decide, by decide, by decide⟩

/-- C3 (counterexample): the claim states save writes to a temporary
location and then replaces the destination.  The effect trace of
save_content on any concrete input is a single direct write to the
destination; it matches no write-temporary-then-replace trace. -/
theorem save_no_temp_replace_cex :
    ¬ ∃ tmpPath : PyStr,
        saveContentOps ['c'] ['f'] = atomicSaveOps ['c'] ['f'] tmpPath := by
  rintro ⟨tmp, h⟩
  simp [saveContentOps, atomicSaveOps] at h

/-- C3 (amended): save_content performs one direct whole-file write to the
destination path — no temporary file and no replace step — and a load of
that path after the completed save returns the saved content.  The
write-to-temporary-then-replace mechanism the claim describes is absent,
so mid-write atomicity towards a concurrent reader is not provided by it. -/
theorem save_direct_write_load_roundtrip (content filePath : PyStr) (fs : FileSystem) :
    saveContentOps content filePath = [FsOp.write filePath content] ∧
    loadContent (runFsOps fs (saveContentOps content filePath)) filePath = some content := by
  refine ⟨rfl, ?_⟩
  simp [loadContent, runFsOps, saveContentOps, applyFsOp]

/-- C4 (amended): a stored normalized content equal to the empty string is
treated on the next cycle exactly like an absent record: Python truthiness
of `not previous_content` sends the check down the baseline-establishment
path (content overwritten with the fresh extraction, no diff computed, no
notification), not down the diff path the claim describes. -/
theorem empty_baseline_takes_baseline_path (extract : PyStr → PyStr)
    (renderHtmlDiff : PyStr → PyStr → PyStr) (now : Int) (notifyOk : Bool)
    (html : PyStr) (st : SiteStore) (hprev : st.content = some []) (hhtml : html ≠ []) :
    checkWebsiteChanges extract renderHtmlDiff now false notifyOk (some html) st =
      ⟨false,
       { st with raw := some html, content := some (extract html), lastCheck := some now },
       false, .baselineEstablished⟩ := by
  have h2 : html.isEmpty = false := by simp [List.isEmpty_iff, hhtml]
  simp [checkWebsiteChanges, h2, hprev]

/-- C4 (counterexample): with a stored empty-string baseline and a
successful fetch, the diff path is not taken — the baseline path runs and
overwrites the stored content, where the diff path would have left the
empty baseline in place (computeDiff with an empty side returns None). -/
theorem empty_baseline_diff_path_cex :
    (checkWebsiteChanges id (fun _ _ => []) 0 false true (some ['h'])
        ⟨some [], none, none, none, none⟩).branch ≠ CheckBranch.diffed ∧
    (checkWebsiteChanges id (fun _ _ => []) 0 false true (some ['h'])
        ⟨some [], none, none, none, none⟩).branch = CheckBranch.baselineEstablished ∧
    (checkWebsiteChanges id (fun _ _ => []) 0 false true (some ['h'])
        ⟨some [], none, none, none, none⟩).store.content = some ['h'] :=
  ⟨by decide, rfl, rfl⟩

/-- Witness for C4 at a concrete input. -/
theorem empty_baseline_takes_baseline_path_witness :
    checkWebsiteChanges id (fun _ _ => []) 3 false true (some ['h'])
        ⟨some [], some ['r'], some ['d'], some ['m'], some 1⟩ =
      ⟨false, ⟨some ['h'], some ['h'], some ['d'], some ['m'], some 3⟩, false,
       .baselineEstablished⟩ :=
  empty_baseline_takes_baseline_path id (fun _ _ => []) 3 true ['h']
    ⟨some [], some ['r'], some ['d'], some ['m'], some 1⟩ rfl (by decide)

/-- C5: when a meaningful change is detected, the new normalized snapshot
(and the diff and its HTML report) are persisted with the result
independent of the value send_notification returns — the source discards
that value — so a notification failure never blocks the snapshot update,
and a following cycle with the same content reports no change and sends
no notification. -/
theorem change_persisted_regardless_of_notify (extract : PyStr → PyStr)
    (renderHtmlDiff : PyStr → PyStr → PyStr) (now now2 : Int) (notifyOk notifyOk2 : Bool)
    (html p d : PyStr) (st : SiteStore)
    (hprev : st.content = some p) (hp : p ≠ []) (hhtml : html ≠ [])
    (hdiff : computeDiff p (extract html) = some d) (hd : d ≠ []) :
    checkWebsiteChanges extract renderHtmlDiff now false notifyOk (some html) st =
      ⟨true,
       { st with raw := some html, content := some (extract html), lastCheck := some now,
                 diffTxt := some d, diffHtml := some (renderHtmlDiff p (extract html)) },
       true, .diffed⟩ ∧
    checkWebsiteChanges extract renderHtmlDiff now false notifyOk (some html) st =
      checkWebsiteChanges extract renderHtmlDiff now false notifyOk2 (some html) st ∧
    (checkWebsiteChanges extract renderHtmlDiff now2 false notifyOk2 (some html)
        (checkWebsiteChanges extract renderHtmlDiff now false notifyOk
          (some html) st).store).changed = false ∧
    (checkWebsiteChanges extract renderHtmlDiff now2 false notifyOk2 (some html)
        (checkWebsiteChanges extract renderHtmlDiff now false notifyOk
          (some html) st).store).notified = false := by
  have h2 : html.isEmpty = false := by simp [List.isEmpty_iff, hhtml]
  have hp2 : p.isEmpty = false := by simp [List.isEmpty_iff, hp]
  have hd2 : d.isEmpty = false := by simp [List.isEmpty_iff, hd]
  have hextr : extract html ≠ [] :=
    (computeDiff_ne_nil (by rw [hdiff]; exact Option.some_ne_none d)).2
  have hextr2 : (extract html).isEmpty = false := by simp [List.isEmpty_iff, hextr]
  have hfirst : checkWebsiteChanges extract renderHtmlDiff now false notifyOk (some html) st =
      ⟨true,
       { st with raw := some html, content := some (extract html), lastCheck := some now,
                 diffTxt := some d, diffHtml := some (renderHtmlDiff p (extract html)) },
       true, .diffed⟩ := by
    simp [checkWebsiteChanges, h2, hprev, hp2, hdiff, hd2]
  refine ⟨hfirst, rfl, ?_, ?_⟩
  · rw [hfirst]
    simp [checkWebsiteChanges, h2, hextr2, computeDiff_self]
  · rw [hfirst]
    simp [checkWebsiteChanges, h2, hextr2, computeDiff_self]

/-- Witness for C5 at a concrete input (with the notification attempt
failing on the changed cycle). -/
theorem change_persisted_regardless_of_notify_witness :
    checkWebsiteChanges id (fun _ _ => []) 0 false false (some ['b'])
        ⟨some ['a'], none, none, none, none⟩ =
      ⟨true,
       ⟨some ['b'], some ['b'], some ['-', ' ', 'a', '\n', '+', ' ', 'b'], some [], some 0⟩,
       true, .diffed⟩ ∧
    checkWebsiteChanges id (fun _ _ => []) 0 false false (some ['b'])
        ⟨some ['a'], none, none, none, none⟩ =
      checkWebsiteChanges id (fun _ _ => []) 0 false true (some ['b'])
        ⟨some ['a'], none, none, none, none⟩ ∧
    (checkWebsiteChanges id (fun _ _ => []) 1 false true (some ['b'])
        (checkWebsiteChanges id (fun _ _ => []) 0 false false (some ['b'])
          ⟨some ['a'], none, none, none, none⟩).store).changed = false ∧
    (checkWebsiteChanges id (fun _ _ => []) 1 false true (some ['b'])
        (checkWebsiteChanges id (fun _ _ => []) 0 false false (some ['b'])
          ⟨some ['a'], none, none, none, none⟩).store).notified = false :=
  change_persisted_regardless_of_notify id (fun _ _ => []) 0 1 false true ['b'] ['a']
    ['-', ' ', 'a', '\n', '+', ' ', 'b'] ⟨some ['a'], none, none, none, none⟩
    rfl (by decide) (by decide) (by decide) (by decide)

/-- C6 (amended): one daemon tick checks an active target exactly when
now - last_check >= effective interval, where a missing last-check record
counts as last_check = 0 (so a never-checked target is due only once now
itself reaches the effective interval — immediate for realistic epoch
clock values), and the effective interval is the target's own override
when present and non-zero (Python `or` treats the integer 0 like an
absent override), otherwise the global default; an inactive target is
never checked regardless of elapsed time. -/
theorem daemon_due_characterisation (globalInterval : Int) (site : SiteSched)
    (lastCheck : Option Int) (now : Int) :
    (daemonDue globalInterval site lastCheck now = true ↔
      (site.active = true ∧ now - lastCheck.getD 0 ≥ effectiveInterval globalInterval site)) ∧
    (site.active = false → daemonDue globalInterval site lastCheck now = false) ∧
    (site.checkInterval = none → effectiveInterval globalInterval site = globalInterval) ∧
    (site.checkInterval = some 0 → effectiveInterval globalInterval site = globalInterval) ∧
    (∀ i : Int, site.checkInterval = some i → i ≠ 0 →
      effectiveInterval globalInterval site = i) ∧
    (lastCheck = none →
      (daemonDue globalInterval site lastCheck now = true ↔
        (site.active = true ∧ now ≥ effectiveInterval globalInterval site))) := by
  refine ⟨?_, ?_, ?_, ?_, ?_, ?_⟩
  · simp [daemonDue]
  · intro h; simp [daemonDue, h]
  · intro h; simp [effectiveInterval, h]
  · intro h; simp [effectiveInterval, h]
  · intro i h hi; simp [effectiveInterval, h, hi]
  · intro h; simp [daemonDue, h]

/-- C6 (counterexample): the claim predicts that a never-checked active
target is immediately due (first input: interval 60, no last check, now
10 — the code computes 10 - 0 < 60 and does not check it), and that a
present interval override of 0 is used as the effective interval, making
the second input due (the code falls back to the global 100 and computes
50 < 100, not due). -/
theorem daemon_due_cex :
    daemonDue 60 ⟨true, none⟩ none 10 = false ∧
    daemonDue 100 ⟨true, some 0⟩ (some 999950) 1000000 = false :=
  ⟨by decide, by decide⟩

/-- Witness for C6 at concrete inputs, including the spec's own example:
last check 100 seconds ago with effective interval 60 is due, with
interval 200 it is not. -/
theorem daemon_due_characterisation_witness :
    daemonDue 60 ⟨true, none⟩ (some 900) 1000 = true ∧
    daemonDue 200 ⟨true, none⟩ (some 900) 1000 = false ∧
    effectiveInterval 60 ⟨true, some 30⟩ = 30 := by
  refine ⟨?_, ?_, ?_⟩
  · exact (daemon_due_characterisation 60 ⟨true, none⟩ (some 900) 1000).1.mpr
      ⟨rfl, by decide⟩
  · refine Bool.eq_false_iff.mpr (fun hc => ?_)
    have h2 := ((daemon_due_characterisation 200 ⟨true, none⟩ (some 900) 1000).1.mp hc).2
    simp [effectiveInterval] at h2
  · exact (daemon_due_characterisation 60 ⟨true, some 30⟩ none 0).2.2.2.2.1 30 rfl (by decide)

/-- C7: when every attempt fails, fetch_website_content makes exactly
retry_count attempts with a fixed retry_delay sleep between consecutive
attempts and none after the last (retry_count - 1 sleeps in all, so at
most retry_count retries), returns the failure value None instead of
raising, and the caller check_website_changes treats that value as
skip-this-cycle: it returns False with the target's files untouched and
no notification, never aborting the process. -/
theorem fetch_retry_exhaustion_skips_cycle (retryCount retryDelay : Nat)
    (attempts : Nat → Option PyStr) (extract : PyStr → PyStr)
    (renderHtmlDiff : PyStr → PyStr → PyStr) (now : Int) (forceUpdate notifyOk : Bool)
    (st : SiteStore) (hfail : ∀ i, attempts i = none) :
    (fetchWebsiteContent retryCount retryDelay attempts).result = none ∧
    (fetchWebsiteContent retryCount retryDelay attempts).sleeps =
      List.replicate (retryCount - 1) retryDelay ∧
    (fetchWebsiteContent retryCount retryDelay attempts).attemptsMade = retryCount ∧
    checkWebsiteChanges extract renderHtmlDiff now forceUpdate notifyOk
        (fetchWebsiteContent retryCount retryDelay attempts).result st =
      ⟨false, st, false, .fetchFailed⟩ := by
  have h := fetchGo_all_fail retryDelay hfail retryCount 0
  unfold fetchWebsiteContent
  rw [h]
  exact ⟨rfl, rfl, rfl, rfl⟩

/-- Witness for C7 at a concrete input: three attempts, two sleeps of
five seconds, a skipped cycle. -/
theorem fetch_retry_exhaustion_skips_cycle_witness :
    (fetchWebsiteContent 3 5 (fun _ => none)).result = none ∧
    (fetchWebsiteContent 3 5 (fun _ => none)).sleeps = List.replicate 2 5 ∧
    (fetchWebsiteContent 3 5 (fun _ => none)).attemptsMade = 3 ∧
    checkWebsiteChanges id (fun _ _ => []) 0 false true
        (fetchWebsiteContent 3 5 (fun _ => none)).result
        ⟨some ['a'], none, none, none, some 7⟩ =
      ⟨false, ⟨some ['a'], none, none, none, some 7⟩, false, .fetchFailed⟩ :=
  fetch_retry_exhaustion_skips_cycle 3 5 (fun _ => none) id (fun _ _ => []) 0 false true
    ⟨some ['a'], none, none, none, some 7⟩ (fun _ => rfl)

/-- C8: in one check_sites cycle the outcome recorded for any site other
than site i — its changed flag and its resulting files — is unchanged
when site i's entry (in particular its fetch outcome) is replaced by
anything else: failures are isolated per site and never abort the rest of
the cycle. -/
theorem check_sites_isolation (extract : PyStr → PyStr)
    (renderHtmlDiff : PyStr → PyStr → PyStr) (now : Int) (notifyOk : Bool)
    (entries : List SiteEntry) (i j : Nat) (e' : SiteEntry)
    (hne : entries ≠ []) (hij : j ≠ i) :
    (checkSites extract renderHtmlDiff now notifyOk (entries.set i e')).map
        (fun r => r.2[j]?) =
      (checkSites extract renderHtmlDiff now notifyOk entries).map (fun r => r.2[j]?) := by
  have h1 : entries.isEmpty = false := by simp [List.isEmpty_iff, hne]
  have h2 : (entries.set i e').isEmpty = false := by
    cases entries with
    | nil => exact absurd rfl hne
    | cons a as => cases i <;> simp [List.set]
  simp only [checkSites, h1, h2, Bool.false_eq_true, if_false, Option.map_some]
  rw [checkSitesGo_spec, checkSitesGo_spec]
  simp [List.getElem?_map, List.getElem?_set_ne (Ne.symm hij)]

/-- Witness for C8 at a concrete input: site 0's fetch fails while site 1
succeeds with changed content; replacing site 0's entry by a succeeding
one leaves site 1's recorded outcome identical. -/
theorem check_sites_isolation_witness :
    (checkSites id (fun _ _ => []) 0 true
        ([((true, none, ⟨some ['a'], none, none, none, none⟩) : SiteEntry),
          ((true, some ['b'], ⟨some ['a'], none, none, none, none⟩) : SiteEntry)].set 0
          ((true, some ['x'], ⟨some ['a'], none, none, none, none⟩) : SiteEntry))).map
        (fun r => r.2[1]?) =
      (checkSites id (fun _ _ => []) 0 true
        [((true, none, ⟨some ['a'], none, none, none, none⟩) : SiteEntry),
         ((true, some ['b'], ⟨some ['a'], none, none, none, none⟩) : SiteEntry)]).map
        (fun r => r.2[1]?) :=
  check_sites_isolation id (fun _ _ => []) 0 true
    [((true, none, ⟨some ['a'], none, none, none, none⟩) : SiteEntry),
     ((true, some ['b'], ⟨some ['a'], none, none, none, none⟩) : SiteEntry)]
    0 1 ((true, some ['x'], ⟨some ['a'], none, none, none, none⟩) : SiteEntry)
    (by decide) (by decide)

/-- C9: the extractor's whitespace normalization — collapse every
whitespace run to a single space, trim both ends — is idempotent: applied
to the normalization of any input text it returns it unchanged. -/
theorem normalize_idempotent (t : PyStr) : normalizeWs (normalizeWs t) = normalizeWs t := by
  obtain ⟨hr, ha, hh⟩ := normalizeWs_invariants t
  exact normalizeWs_fixpoint hr ha hh (dropTrailingWs_normalizeWs t)

/-- C10: on a cycle with a non-empty stored baseline, a successful
non-empty fetch and an empty computed diff, check_website_changes returns
False, sends no notification, and modifies only the raw-payload slot and
the last-check timestamp: the normalized-content baseline, the last diff
and the HTML diff report keep their previous values. -/
theorem unchanged_cycle_frame (extract : PyStr → PyStr)
    (renderHtmlDiff : PyStr → PyStr → PyStr) (now : Int) (notifyOk : Bool)
    (html p : PyStr) (st : SiteStore)
    (hprev : st.content = some p) (hp : p ≠ []) (hhtml : html ≠ [])
    (hdiff : computeDiff p (extract html) = none) :
    checkWebsiteChanges extract renderHtmlDiff now false notifyOk (some html) st =
      ⟨false, { st with raw := some html, lastCheck := some now }, false, .diffed⟩ := by
  have h2 : html.isEmpty = false := by simp [List.isEmpty_iff, hhtml]
  have hp2 : p.isEmpty = false := by simp [List.isEmpty_iff, hp]
  simp [checkWebsiteChanges, h2, hprev, hp2, hdiff]

/-- Witness for C10 at a concrete input: same content as the stored
baseline; only the raw slot and the timestamp move. -/
theorem unchanged_cycle_frame_witness :
    checkWebsiteChanges id (fun _ _ => []) 2 false true (some ['a'])
        ⟨some ['a'], some ['z'], some ['d'], some ['m'], some 1⟩ =
      ⟨false, ⟨some ['a'], some ['a'], some ['d'], some ['m'], some 2⟩, false, .diffed⟩ :=
  unchanged_cycle_frame id (fun _ _ => []) 2 true ['a'] ['a']
    ⟨some ['a'], some ['z'], some ['d'], some ['m'], some 1⟩
    rfl (by decide) (by decide) (by decide)


end WebsiteMonitor
